import Mathlib

/-!
Shallow embedding of the `pdf_to_html_converter` backend
(`backend/app/pdf_parser.py`, `backend/app/html_generator.py`,
`backend/app/main.py`, `backend/app/exceptions.py`).

External collaborators (the PDF library, the table-extraction library, the
command-line image tool and the generative-model service) are modelled as
inputs: a parsed-document value, a per-page table list, an outcome of the
external tool run, and string-valued completion functions.  The repository's
own control flow and string construction are translated statement by
statement.
-/

/-- Python `sep.join(xs)`: joins a list of strings with a separator. -/
def pyJoin (sep : String) : List String → String
  | [] => ""
  | [x] => x
  | x :: y :: xs => x ++ sep ++ pyJoin sep (y :: xs)

/-- Value of a decimal digit character. -/
def digitVal (c : Char) : Nat := c.toNat - 48

/-- Numeric value of a decimal digit string, most significant digit first. -/
def digitsVal (ds : List Char) : Nat := ds.foldl (fun a c => a * 10 + digitVal c) 0

/-- Specification of the decimal digit characters of a natural number
(most significant first), used to reason about `Nat.repr`. -/
def specDigits (n : Nat) : List Char :=
  if _h : n < 10 then [Nat.digitChar n]
  else specDigits (n / 10) ++ [Nat.digitChar (n % 10)]
termination_by n
decreasing_by exact Nat.div_lt_self (by omega) (by omega)

theorem specDigits_of_lt {n : Nat} (h : n < 10) : specDigits n = [Nat.digitChar n] := by
  rw [specDigits]
  simp [h]

theorem specDigits_of_ge {n : Nat} (h : ¬ n < 10) :
    specDigits n = specDigits (n / 10) ++ [Nat.digitChar (n % 10)] := by
  rw [specDigits]
  simp [h]

theorem digitsVal_append (ds : List Char) (c : Char) :
    digitsVal (ds ++ [c]) = digitsVal ds * 10 + digitVal c := by
  simp [digitsVal, List.foldl_append]

theorem digitVal_digitChar {n : Nat} (h : n < 10) : digitVal (Nat.digitChar n) = n := by
  interval_cases n <;> rfl

theorem digitsVal_specDigits (n : Nat) : digitsVal (specDigits n) = n := by
  induction n using Nat.strong_induction_on with
  | _ n ih =>
    by_cases h : n < 10
    · rw [specDigits_of_lt h]
      simp [digitsVal, digitVal_digitChar h]
    · rw [specDigits_of_ge h, digitsVal_append,
        ih (n / 10) (Nat.div_lt_self (by omega) (by omega)),
        digitVal_digitChar (Nat.mod_lt n (by omega))]
      omega

theorem toDigitsCore_eq_specDigits (fuel : Nat) :
    ∀ (n : Nat) (ds : List Char), n < fuel →
      Nat.toDigitsCore 10 fuel n ds = specDigits n ++ ds := by
  induction fuel with
  | zero => intro n ds h; omega
  | succ fuel ih =>
    intro n ds h
    by_cases hd : n / 10 = 0
    · have h10 : n < 10 := by omega
      simp [Nat.toDigitsCore, hd, specDigits_of_lt h10, Nat.mod_eq_of_lt h10]
    · have h10 : ¬ n < 10 := fun hc => hd (Nat.div_eq_of_lt hc)
      have hlt : n / 10 < fuel :=
        Nat.lt_of_lt_of_le (Nat.div_lt_self (by omega) (by omega)) (by omega)
      simp only [Nat.toDigitsCore, hd, if_false]
      rw [ih (n / 10) (Nat.digitChar (n % 10) :: ds) hlt, specDigits_of_ge h10,
        List.append_assoc]
      rfl

theorem repr_data_eq_specDigits (n : Nat) : (Nat.repr n).data = specDigits n := by
  show (Nat.toDigits 10 n).asString.data = specDigits n
  rw [Nat.toDigits, toDigitsCore_eq_specDigits (n + 1) n [] (by omega)]
  simp [List.asString]

theorem natRepr_injective : Function.Injective Nat.repr := by
  intro m n h
  have h2 : specDigits m = specDigits n := by
    rw [← repr_data_eq_specDigits, ← repr_data_eq_specDigits, h]
  have h3 := congrArg digitsVal h2
  rwa [digitsVal_specDigits, digitsVal_specDigits] at h3

theorem string_append_cancel_left {a b c : String} (h : a ++ b = a ++ c) : b = c := by
  apply String.ext
  have h2 := congrArg String.data h
  simp only [String.data_append] at h2
  exact List.append_cancel_left h2

theorem string_append_cancel_right {a b c : String} (h : a ++ c = b ++ c) : a = b := by
  apply String.ext
  have h2 := congrArg String.data h
  simp only [String.data_append] at h2
  exact List.append_cancel_right h2

/-- Python `round` on rationals: nearest integer, ties to even. -/
def pyRound (q : ℚ) : Int :=
  let f : Int := q.floor
  let r : ℚ := q - (f : ℚ)
  if r < 1 / 2 then f
  else if 1 / 2 < r then f + 1
  else if f % 2 = 0 then f else f + 1

/-- Python `str` on integers (decimal, `-` sign for negatives). -/
def intStr (i : Int) : String :=
  if i < 0 then "-" ++ Nat.repr i.natAbs else Nat.repr i.natAbs

/-! Data model.  A `fitz` text span, the raw layout tree of a page
(blocks containing lines containing spans), the per-page images of the
document, and the two independent parses (`fitz` and `pdfplumber`) of the
uploaded file. -/

/-- A raw text span of the PDF layout tree (`span` in `page.get_text("dict")`):
text, bounding box, font name, font size and color. -/
structure Span where
  text : String
  bbox : List ℚ
  font : String
  size : ℚ
  color : Nat
deriving DecidableEq

/-- A line of the layout tree, holding its spans. -/
structure Line where
  spans : List Span
deriving DecidableEq

/-- A block of the layout tree: `type` 0 means a text block. -/
structure Block where
  type : Nat
  lines : List Line
deriving DecidableEq

/-- A text span as produced by `extract_text_with_positions`: the font size
has been rounded to an integer, the bounding box is kept as is. -/
structure TextSpan where
  text : String
  bbox : List ℚ
  font : String
  size : Int
  color : Nat
deriving DecidableEq

/-- An embedded raster image of a page, merging `get_page_images` (the
cross-reference id) with `doc.extract_image` (bytes and format extension). -/
structure ImgInfo where
  xref : Nat
  image : List Nat
  ext : String
deriving DecidableEq

/-- One page of the `fitz` document: its layout blocks and embedded images. -/
structure PageData where
  blocks : List Block
  images : List ImgInfo
deriving DecidableEq

/-- The document produced by a successful `fitz.open`: encryption flag, the
set of passwords `doc.authenticate` accepts, and the pages. -/
structure RawDoc where
  is_encrypted : Bool
  passwords : List String
  pages : List PageData
deriving DecidableEq

/-- Number of pages (`doc.page_count`). -/
def RawDoc.page_count (d : RawDoc) : Nat := d.pages.length

/-- A table cell as returned by `pdfplumber` (`None` or a string). -/
abbrev Cell := Option String

/-- A table: rows of cells. -/
abbrev Table := List (List Cell)

/-- The uploaded file as both libraries see it: the outcome of `fitz.open`
on its bytes, and the per-page table lists `pdfplumber` detects in it. -/
structure PdfFile where
  parse : Except String RawDoc
  plumberPages : List (List Table)

/-- A document handle as returned by `open_pdf_from_path`: the document plus
whether `doc.close()` has been called on it. -/
structure DocHandle where
  raw : RawDoc
  closed : Bool
deriving DecidableEq

/-- Python exceptions that can cross the functions modelled here: a raw
PDF-library error, `subprocess.TimeoutExpired`, and the repository's own
`PDFProcessingError` hierarchy (carrying class name and message). -/
inductive PyError where
  | fitzError (msg : String)
  | timeoutExpired
  | pdfProcessingError (errType msg : String)
deriving DecidableEq

/-- Embeds `open_pdf_from_path` (pdf_parser.py:11-31): opens the file,
authenticates with `password or ""` when encrypted, and on failed
authentication closes the document — the `raise PasswordProtectedPDFError`
is commented out in the source — and still returns it.  A parse failure
re-raises the raw library exception (`except Exception as e: raise e`). -/
def open_pdf_from_path (f : PdfFile) (password : Option String) :
    Except PyError DocHandle :=
  match f.parse with
  | .error msg => .error (.fitzError msg)
  | .ok doc =>
    if doc.is_encrypted then
      if (password.getD "") ∈ doc.passwords then
        .ok { raw := doc, closed := false }
      else
        .ok { raw := doc, closed := true }
    else
      .ok { raw := doc, closed := false }

/-- One page of extracted text (`{"page_number": ..., "blocks": ...}`). -/
structure PageText where
  page_number : Nat
  blocks : List TextSpan
deriving DecidableEq

/-- Conversion of a raw span into the extracted record: the size is rounded
(`round(span["size"])`), text, bbox, font and color are kept. -/
def span_record (s : Span) : TextSpan :=
  { text := s.text, bbox := s.bbox, font := s.font,
    size := pyRound s.size, color := s.color }

/-- Embeds `extract_text_with_positions` (pdf_parser.py:59-92): walks each
page's blocks, keeps only type-0 blocks, and flattens lines and spans in
order. -/
def extract_text_with_positions (docs : RawDoc) : List PageText :=
  docs.pages.enum.map fun pr =>
    { page_number := pr.1,
      blocks := pr.2.blocks.flatMap fun b =>
        if b.type = 0 then b.lines.flatMap fun l => l.spans.map span_record
        else [] }

/-- A sparse per-page table record (`{"page_number": ..., "tables": ...}`). -/
structure TableEntry where
  page_number : Nat
  tables : List Table
deriving DecidableEq

/-- Embeds `extract_tables_with_pdfplumber` (pdf_parser.py:94-111): only the
pages on which the library detects at least one table produce an entry. -/
def extract_tables_with_pdfplumber (f : PdfFile) : List TableEntry :=
  f.plumberPages.enum.flatMap fun pr =>
    if pr.2 ≠ [] then [{ page_number := pr.1, tables := pr.2 }] else []

/-- An extracted image record (`{"name": ..., "bytes": ..., "page": ...}`). -/
structure ImageAsset where
  name : String
  bytes : List Nat
  page : Nat
deriving DecidableEq

/-- The primary (PyMuPDF) extraction loop of `extract_images`
(pdf_parser.py:210-219): names each image `image_{page_num}_{xref}.{ext}`
and attributes it to its page. -/
def primary_images (doc : RawDoc) : List ImageAsset :=
  doc.pages.enum.flatMap fun pr =>
    pr.2.images.map fun info =>
      { name := "image_" ++ Nat.repr pr.1 ++ "_" ++ Nat.repr info.xref ++ "." ++ info.ext,
        bytes := info.image, page := pr.1 }

/-- Outcome of running the external `pdfimages` command-line tool: the files
it wrote to the scratch directory on success, or the way it failed. -/
inductive ToolOutcome where
  | success (files : List (String × List Nat))
  | calledProcessError
  | fileNotFoundError
  | timeoutExpired
deriving DecidableEq

/-- Embeds `_extract_images_with_fallback` (pdf_parser.py:159-202): on
success every collected file becomes an `ImageAsset` with `page` 0; the
`except` clause catches only `subprocess.CalledProcessError` and
`FileNotFoundError` (returning `[]`), so `subprocess.TimeoutExpired`
propagates. -/
def extract_images_with_fallback (tool : ToolOutcome) :
    Except PyError (List ImageAsset) :=
  match tool with
  | .success files => .ok (files.map fun fb => { name := fb.1, bytes := fb.2, page := 0 })
  | .calledProcessError => .ok []
  | .fileNotFoundError => .ok []
  | .timeoutExpired => .error .timeoutExpired

/-- Embeds `extract_images` (pdf_parser.py:205-228) with an explicit flag
recording whether the fallback branch was taken
(`if not all_images and doc.page_count > 0`). -/
def extract_images_traced (doc : RawDoc) (tool : ToolOutcome) :
    Except PyError (List ImageAsset) × Bool :=
  let all_images := primary_images doc
  if all_images = [] ∧ doc.page_count > 0 then
    (extract_images_with_fallback tool, true)
  else
    (.ok all_images, false)

/-- Embeds `extract_images` (pdf_parser.py:205-228). -/
def extract_images (doc : RawDoc) (tool : ToolOutcome) :
    Except PyError (List ImageAsset) :=
  (extract_images_traced doc tool).1

/-- Models the PDF library's behavior of `doc.page_count` on a handle: a
closed document raises (`document closed`). -/
def doc_page_count (d : DocHandle) : Except PyError Nat :=
  if d.closed then .error (.fitzError "document closed") else .ok d.raw.page_count

/-- Models the PDF library's behavior of `doc.load_page` on a handle: a
closed document raises (`document closed`). -/
def doc_load_page (d : DocHandle) (i : Nat) : Except PyError PageData :=
  if d.closed then .error (.fitzError "document closed")
  else
    match d.raw.pages.get? i with
    | some p => .ok p
    | none => .error (.fitzError "page not in document")

/-! Embedding of `html_generator.py`.  The generative-model chains are
modelled as functions from the (system prompt, human prompt) pair to the
completion text; the synthesizers additionally report how many model calls
they issued. -/

/-- Python `str` of a list of integers, e.g. `[10, 20, 30, 40]`. -/
def intListStr (l : List Int) : String :=
  "[" ++ pyJoin ", " (l.map intStr) ++ "]"

/-- Python `str` applied to a table cell: `None` renders as the literal
text `None`, a string renders as itself. -/
def pyStr (c : Cell) : String :=
  match c with
  | none => "None"
  | some s => s

/-- One table row, pipe-joined after `str` conversion of every cell
(html_generator.py:88, `' | '.join(map(str, row))`). -/
def table_row_str (row : List Cell) : String :=
  pyJoin " | " (row.map pyStr)

/-- A whole table, newline-joined rows (html_generator.py:88). -/
def table_str (t : Table) : String :=
  pyJoin "\n" (t.map table_row_str)

/-- Embeds `format_data_for_llm` (html_generator.py:67-91): a text-elements
section, an image-elements section when there are images, and a
pre-extracted-tables section when there are tables, newline-joined. -/
def format_data_for_llm (page_text_blocks : List TextSpan)
    (page_image_data : List ImageAsset) (page_tables : List Table) : String :=
  let textLines := page_text_blocks.map fun b =>
    "- Text: \"" ++ b.text ++ "\" | Position (x1,y1,x2,y2): " ++
      intListStr (b.bbox.map pyRound) ++ " | Size: " ++ intStr b.size
  let imageLines :=
    if page_image_data.isEmpty then []
    else "\n**Image Elements:**" ::
      page_image_data.map fun image => "- Image Filename: \"" ++ image.name ++ "\""
  let tableLines :=
    if page_tables.isEmpty then []
    else "\n**PRE-EXTRACTED TABLES (MUST be formatted as Markdown tables):**" ::
      page_tables.enum.flatMap fun pr =>
        ["\n--- Table " ++ Nat.repr (pr.1 + 1) ++ " ---", table_str pr.2]
  pyJoin "\n" (("**Text Elements:**" :: textLines) ++ imageLines ++ tableLines)

/-- The character budget of the Markdown synthesizer
(html_generator.py:105). -/
def MAX_CHARS : Nat := 15000

/-- The fixed lines opening the fallback Markdown document
(html_generator.py:110-114). -/
def md_fallback_header : List String :=
  ["# Page Content Too Large for Detailed Analysis",
   "The following is a raw text dump of the page content. Formatting has been simplified to avoid exceeding AI processing limits.",
   "\n---\n"]

/-- The system instruction of the Markdown synthesizer
(html_generator.py:135-142). -/
def md_system_prompt : String :=
  "You are an expert document analysis AI. Your task is to synthesize raw text elements and pre-extracted table data into a single, clean Markdown document.\n1.  **Prioritize Table Data:** Data provided under \x27PRE-EXTRACTED TABLES\x27 is highly accurate. You MUST format this data using proper Markdown table syntax (`| Header | ... |`).\n2.  **Use Text for Context:** Use the \x27Text Elements\x27 to create surrounding paragraphs and headings. Do NOT repeat text that is already present in the tables.\n3.  **Integrate Content:** Merge the tables and other text into a cohesive document.\n4.  **Handle Images:** Represent any images using Markdown image syntax.\nYour output must be ONLY the raw Markdown content."

/-- The human message of the Markdown synthesizer with the page data
substituted (html_generator.py:144). -/
def md_human_prompt (formatted_data : String) : String :=
  "Here is the data for the page:\n\n" ++ formatted_data

/-- Embeds `generate_markdown_from_data` (html_generator.py:93-153): formats
the page data, and if its length exceeds `MAX_CHARS` returns the fallback
dump without calling the model; otherwise issues one model call and returns
its output.  The second component counts the model calls issued. -/
def generate_markdown_from_data (llm : String → String → String)
    (page_text_blocks : List TextSpan) (page_image_data : List ImageAsset)
    (page_tables : List Table) : String × Nat :=
  let formatted_data := format_data_for_llm page_text_blocks page_image_data page_tables
  if formatted_data.length > MAX_CHARS then
    (pyJoin "\n\n" (md_fallback_header ++ page_text_blocks.map fun b => b.text), 0)
  else
    (llm md_system_prompt (md_human_prompt formatted_data), 1)

/-- An `<a href="page-{page}.html">{label}</a>` navigation anchor
(html_generator.py:229-231). -/
def anchor_to (page : Nat) (label : String) : String :=
  "<a href=\"page-" ++ Nat.repr page ++ ".html\">" ++ label ++ "</a>"

/-- The navigation link list of `generate_html_from_markdown`
(html_generator.py:227-231): a Previous link when not on the first page,
then a Next link when not on the last page. -/
def nav_links (current_page total_pages : Nat) : List String :=
  (if current_page > 1 then [anchor_to (current_page - 1) "Previous"] else []) ++
  (if current_page < total_pages then [anchor_to (current_page + 1) "Next"] else [])

/-- The navigation footer markup (html_generator.py:233). -/
def nav_html (current_page total_pages : Nat) : String :=
  "<footer><nav>" ++ pyJoin " | " (nav_links current_page total_pages) ++
    "</nav><p>Page " ++ Nat.repr current_page ++ " of " ++ Nat.repr total_pages ++
    "</p></footer>"

/-- The navigation instruction inserted into the system prompt
(html_generator.py:225-234): empty unless the document has more than one
page. -/
def nav_instructions (current_page total_pages : Nat) : String :=
  if total_pages > 1 then
    "At the end of the `<body>`, before the closing tag, you MUST include this exact navigation HTML: " ++
      nav_html current_page total_pages
  else ""

/-- The system instruction of the HTML synthesizer
(html_generator.py:236-251). -/
def html_system_prompt (current_page total_pages : Nat) : String :=
  "\nYou are an expert front-end developer. Your task is to convert the given content (in Markdown format) into a complete, production-ready HTML5 document based on the specified design requirements.\n\nDESIGN REQUIREMENTS:\n- Layout: Use a single-column, responsive flexbox layout.\n- Color scheme: A modern, clean palette with dark grey text (#333), a white background (#FFF), and a subtle blue for links.\n- Typography: Use a common sans-serif font like Arial or Helvetica with a base font size of 16px.\n- Responsive: The layout must be mobile-first.\n\nOUTPUT FORMAT:\n- A complete HTML5 document.\n- All CSS must be embedded in a single `<style>` tag in the `<head>`.\n- Use a clean, semantic HTML structure (e.g., <main>, <article>, <h1>, <p>).\n- " ++
    nav_instructions current_page total_pages ++
    "\n- Output ONLY the raw HTML code, starting with <!DOCTYPE html>.\n"

/-- Embeds `generate_html_from_markdown` (html_generator.py:208-263): one
model call with the design-contract system prompt (navigation instruction
included) and the Markdown as content; its output is returned verbatim. -/
def generate_html_from_markdown (llm : String → String → String)
    (markdown_content : String) (current_page total_pages : Nat) : String :=
  llm (html_system_prompt current_page total_pages)
    ("CONTENT:\n\n" ++ markdown_content)

/-! Embedding of `main.py`: the upload endpoint with its validation order,
per-page join, archive assembly and error mapping. -/

/-- The data written into a zip entry: page HTML and the stylesheet are
text, image entries are raw bytes. -/
inductive ZipData where
  | text (s : String)
  | blob (bs : List Nat)
deriving DecidableEq

/-- The shared stylesheet entry contents (main.py:136). -/
def css_entry : String :=
  "body \x7b font-family: sans-serif; color: #333; margin: 2em; \x7d"

/-- The per-page table lookup of the join (main.py:117):
`next((t['tables'] for t in all_table_data if t['page_number'] == page_num), [])`
— the first matching entry's tables, defaulting to the empty list. -/
def page_tables_lookup (all_table_data : List TableEntry) (page_num : Nat) :
    List Table :=
  match all_table_data.find? (fun t => t.page_number == page_num) with
  | some t => t.tables
  | none => []

/-- The per-page image lookup of the join (main.py:116): filters the global
image list by equality on `page`. -/
def page_images_lookup (all_image_data : List ImageAsset) (page_num : Nat) :
    List ImageAsset :=
  all_image_data.filter (fun img => img.page == page_num)

/-- The per-page text lookup of the join (main.py:115):
`all_text_data[page_num]['blocks']` — the text extraction is dense, so the
index is always in range there. -/
def page_blocks_lookup (all_text_data : List PageText) (page_num : Nat) :
    List TextSpan :=
  ((all_text_data.get? page_num).map fun pt => pt.blocks).getD []

/-- The external collaborators of one request: the two model chains and the
outcome of the command-line image tool. -/
structure Env where
  llmMd : String → String → String
  llmHtml : String → String → String
  tool : ToolOutcome

/-- Name of a page entry of the archive (`page-{n}.html`, 1-based). -/
def page_entry_name (n : Nat) : String :=
  "page-" ++ Nat.repr n ++ ".html"

/-- Name of an image entry of the archive (`images/{name}`). -/
def image_entry_name (name : String) : String :=
  "images/" ++ name

/-- Embeds the archive assembly of `convert_pdf_to_html` (main.py:111-139):
for each page index in ascending order, join text, images and tables, run
the two synthesis stages, and write `page-{n}.html`; then the stylesheet
entry; then one `images/{name}` entry per extracted image (guarded by
`if all_image_data:`). -/
def build_zip (env : Env) (total_pages : Nat) (all_text_data : List PageText)
    (all_image_data : List ImageAsset) (all_table_data : List TableEntry) :
    List (String × ZipData) :=
  ((List.range total_pages).map fun page_num =>
    let current_page := page_num + 1
    let page_text_blocks := page_blocks_lookup all_text_data page_num
    let page_image_data := page_images_lookup all_image_data page_num
    let page_tables := page_tables_lookup all_table_data page_num
    let markdown_content :=
      (generate_markdown_from_data env.llmMd page_text_blocks page_image_data page_tables).1
    let final_html :=
      generate_html_from_markdown env.llmHtml markdown_content current_page total_pages
    (page_entry_name current_page, ZipData.text final_html))
  ++ [("style.css", ZipData.text css_entry)]
  ++ (if all_image_data.isEmpty then []
      else all_image_data.map fun image =>
        (image_entry_name image.name, ZipData.blob image.bytes))

/-- Observable steps of the endpoint, used to state what happens before
what: reading the upload body into memory, and opening/parsing the PDF. -/
inductive Ev where
  | readBody
  | openPdf
deriving DecidableEq

/-- An HTTP response body: the structured `{error: {type, message}}` payload
of the `PDFProcessingError` handler, a plain detail message, or the zip
download. -/
inductive RespBody where
  | structuredError (errType msg : String)
  | detail (msg : String)
  | zip (entries : List (String × ZipData))
deriving DecidableEq

/-- An HTTP response: status code and body. -/
structure Response where
  status : Nat
  body : RespBody
deriving DecidableEq

/-- An upload request: declared content type, filename, body size in bytes,
and the file contents as the two PDF libraries see them. -/
structure UploadRequest where
  content_type : String
  filename : String
  size : Nat
  file : PdfFile

/-- The upload size cap (main.py:84): 50 MiB. -/
def MAX_FILE_SIZE : Nat := 50 * 1024 * 1024

/-- Embeds the endpoint `convert_pdf_to_html` (main.py:86-158) together with
its exception mapping (main.py:43-72, 146-153): non-PDF content type is
rejected with 400 before the body is read; an oversized body with 413; a
`PDFProcessingError` reaches the registered handler (400, structured body);
any other exception — including the raw parse error re-raised by
`open_pdf_from_path` and errors raised by operations on a closed document —
collapses to an opaque 500.  The second component is the trace of observable
steps taken. -/
def convert_pdf_to_html (env : Env) (req : UploadRequest) :
    Response × List Ev :=
  if req.content_type ≠ "application/pdf" then
    ({ status := 400, body := .detail "Invalid file type." }, [])
  else if req.size > MAX_FILE_SIZE then
    ({ status := 413, body := .detail "File size exceeds limit." }, [Ev.readBody])
  else
    match open_pdf_from_path req.file none with
    | .error (.pdfProcessingError t m) =>
      ({ status := 400, body := .structuredError t m }, [Ev.readBody, Ev.openPdf])
    | .error _ =>
      ({ status := 500, body := .detail "An internal server error occurred." },
        [Ev.readBody, Ev.openPdf])
    | .ok doc =>
      if doc.closed then
        ({ status := 500, body := .detail "An internal server error occurred." },
          [Ev.readBody, Ev.openPdf])
      else
        match extract_images doc.raw env.tool with
        | .error _ =>
          ({ status := 500, body := .detail "An internal server error occurred." },
            [Ev.readBody, Ev.openPdf])
        | .ok all_image_data =>
          let all_text_data := extract_text_with_positions doc.raw
          let all_table_data := extract_tables_with_pdfplumber req.file
          ({ status := 200,
             body := .zip (build_zip env doc.raw.page_count all_text_data
               all_image_data all_table_data) },
            [Ev.readBody, Ev.openPdf])

/-! Helper lemmas. -/

theorem pyJoin_cons (sep x : String) (l : List String) (h : l ≠ []) :
    pyJoin sep (x :: l) = x ++ sep ++ pyJoin sep l := by
  cases l with
  | nil => exact absurd rfl h
  | cons y ys => rfl

theorem page_entry_name_injective : Function.Injective page_entry_name := by
  intro m n h
  exact natRepr_injective
    (string_append_cancel_left (string_append_cancel_right h))

theorem image_entry_name_injective : Function.Injective image_entry_name := by
  intro a b h
  exact string_append_cancel_left h

theorem data_page_entry_name (n : Nat) :
    (page_entry_name n).data =
      'p' :: 'a' :: 'g' :: 'e' :: '-' :: ((Nat.repr n).data ++ ['.', 'h', 't', 'm', 'l']) := by
  show (("page-" ++ Nat.repr n) ++ ".html").data = _
  rw [String.data_append, String.data_append,
    show "page-".data = ['p', 'a', 'g', 'e', '-'] from rfl,
    show ".html".data = ['.', 'h', 't', 'm', 'l'] from rfl]
  simp

theorem data_image_entry_name (s : String) :
    (image_entry_name s).data =
      'i' :: 'm' :: 'a' :: 'g' :: 'e' :: 's' :: '/' :: s.data := by
  show ("images/" ++ s).data = _
  rw [String.data_append, show "images/".data = ['i', 'm', 'a', 'g', 'e', 's', '/'] from rfl]
  rfl

theorem page_entry_name_ne_css (n : Nat) : page_entry_name n ≠ "style.css" := by
  intro h
  have h2 := congrArg String.data h
  rw [data_page_entry_name,
    show ("style.css").data = ['s', 't', 'y', 'l', 'e', '.', 'c', 's', 's'] from rfl] at h2
  injection h2 with h3 _
  exact absurd h3 (by decide)

theorem image_entry_name_ne_css (s : String) : image_entry_name s ≠ "style.css" := by
  intro h
  have h2 := congrArg String.data h
  rw [data_image_entry_name,
    show ("style.css").data = ['s', 't', 'y', 'l', 'e', '.', 'c', 's', 's'] from rfl] at h2
  injection h2 with h3 _
  exact absurd h3 (by decide)

theorem page_entry_name_ne_image (n : Nat) (s : String) :
    page_entry_name n ≠ image_entry_name s := by
  intro h
  have h2 := congrArg String.data h
  rw [data_page_entry_name, data_image_entry_name] at h2
  injection h2 with h3 _
  exact absurd h3 (by decide)

/-! Claim theorems. -/

/-- C9: in the deterministic pre-step `format_data_for_llm`, every table
cell is rendered through `str` conversion (`pyStr`) before pipe-joining, so
a `None` cell appears in the model-facing description as the literal text
`None` and an empty-string cell as an empty field between pipes. -/
theorem format_data_cells_via_str (row : List Cell) :
    format_data_for_llm [] [] [[row]] =
      pyJoin "\n"
        ["**Text Elements:**",
         "\n**PRE-EXTRACTED TABLES (MUST be formatted as Markdown tables):**",
         "\n--- Table 1 ---",
         pyJoin " | " (row.map pyStr)] ∧
    pyStr none = "None" ∧ pyStr (some "") = "" := by
  refine ⟨?_, rfl, rfl⟩
  have h1 : format_data_for_llm [] [] [[row]] =
      pyJoin "\n"
        ["**Text Elements:**",
         "\n**PRE-EXTRACTED TABLES (MUST be formatted as Markdown tables):**",
         "\n--- Table " ++ Nat.repr (0 + 1) ++ " ---",
         pyJoin " | " (row.map pyStr)] := rfl
  rw [h1, show "\n--- Table " ++ Nat.repr (0 + 1) ++ " ---" = "\n--- Table 1 ---" from rfl]

/-- C3: the navigation construction of the HTML synthesizer: with a single
page the navigation instruction (and hence the footer markup) is empty; on
page 1 of N>1 the footer's link list is exactly a Next link to page-2.html;
on the last page it is exactly a Previous link to page-(N-1).html; strictly
inside it is Previous then Next. -/
theorem nav_footer_links (current_page total_pages : Nat) :
    (total_pages = 1 → nav_instructions current_page total_pages = "") ∧
    (current_page = 1 → 1 < total_pages →
      nav_links current_page total_pages = [anchor_to 2 "Next"]) ∧
    (current_page = total_pages → 1 < total_pages →
      nav_links current_page total_pages = [anchor_to (total_pages - 1) "Previous"]) ∧
    (1 < current_page → current_page < total_pages →
      nav_links current_page total_pages =
        [anchor_to (current_page - 1) "Previous", anchor_to (current_page + 1) "Next"]) := by
  refine ⟨?_, ?_, ?_, ?_⟩
  · intro h
    subst h
    simp [nav_instructions]
  · intro h1 h2
    subst h1
    simp [nav_links, h2]
  · intro h1 h2
    subst h1
    simp [nav_links, h2, Nat.lt_irrefl]
  · intro h1 h2
    simp [nav_links, h1, h2]

/-- C3 witness: the four cases at concrete pages: a 1-page document, page 1
of 3, page 3 of 3, page 2 of 3. -/
theorem nav_footer_links_witness :
    nav_instructions 1 1 = "" ∧
    nav_links 1 3 = [anchor_to 2 "Next"] ∧
    nav_links 3 3 = [anchor_to 2 "Previous"] ∧
    nav_links 2 3 = [anchor_to 1 "Previous", anchor_to 3 "Next"] :=
  ⟨(nav_footer_links 1 1).1 rfl,
   (nav_footer_links 1 3).2.1 rfl (by decide),
   (nav_footer_links 3 3).2.2.1 rfl (by decide),
   (nav_footer_links 2 3).2.2.2 (by decide) (by decide)⟩

/-- C1: the Markdown synthesizer's size gate: when the rendered description
is within the 15000-character budget it issues exactly one model call and
returns its output; when the description exceeds the budget it issues zero
model calls and returns the fallback document, whose heading is present
verbatim at the front and which is the heading lines followed by the page's
text span contents in original order. -/
theorem generate_markdown_size_gate (llm : String → String → String)
    (blocks : List TextSpan) (imgs : List ImageAsset) (tbls : List Table) :
    ((format_data_for_llm blocks imgs tbls).length ≤ MAX_CHARS →
      generate_markdown_from_data llm blocks imgs tbls =
        (llm md_system_prompt (md_human_prompt (format_data_for_llm blocks imgs tbls)), 1)) ∧
    (MAX_CHARS < (format_data_for_llm blocks imgs tbls).length →
      (generate_markdown_from_data llm blocks imgs tbls).2 = 0 ∧
      (∃ rest, (generate_markdown_from_data llm blocks imgs tbls).1 =
        "# Page Content Too Large for Detailed Analysis" ++ rest) ∧
      (generate_markdown_from_data llm blocks imgs tbls).1 =
        pyJoin "\n\n" (md_fallback_header ++ blocks.map fun b => b.text)) := by
  constructor
  · intro h
    simp only [generate_markdown_from_data]
    rw [if_neg (Nat.not_lt.mpr h)]
  · intro h
    simp only [generate_markdown_from_data]
    rw [if_pos h]
    refine ⟨rfl, ?_, rfl⟩
    refine ⟨"\n\n" ++ pyJoin "\n\n" (md_fallback_header.tail ++ blocks.map fun b => b.text), ?_⟩
    show pyJoin "\n\n" (md_fallback_header ++ blocks.map fun b => b.text) = _
    rw [show (md_fallback_header ++ blocks.map fun b => b.text) =
      "# Page Content Too Large for Detailed Analysis" ::
        (md_fallback_header.tail ++ blocks.map fun b => b.text) from rfl]
    rw [pyJoin_cons _ _ _ (by simp [md_fallback_header]), String.append_assoc]

/-- A model chain that echoes its human message, used for concrete runs. -/
def llm_echo : String → String → String := fun _ b => b

/-- A concrete environment for concrete runs of the pipeline. -/
def env0 : Env :=
  { llmMd := llm_echo, llmHtml := llm_echo, tool := ToolOutcome.calledProcessError }

/-- A text span whose text alone exceeds the character budget. -/
def big_span : TextSpan :=
  { text := String.mk (List.replicate 15001 'a'), bbox := [], font := "Arial",
    size := 12, color := 0 }

/-- C1 witness: on an empty page the description fits the budget and one
model call is issued; on a page with a 15001-character span the budget is
exceeded, no call is issued and the fallback dump is returned. -/
theorem generate_markdown_size_gate_witness :
    ((format_data_for_llm [] [] []).length ≤ MAX_CHARS ∧
      generate_markdown_from_data llm_echo [] [] [] =
        (llm_echo md_system_prompt (md_human_prompt (format_data_for_llm [] [] [])), 1)) ∧
    (MAX_CHARS < (format_data_for_llm [big_span] [] []).length ∧
      (generate_markdown_from_data llm_echo [big_span] [] []).2 = 0 ∧
      (generate_markdown_from_data llm_echo [big_span] [] []).1 =
        pyJoin "\n\n" (md_fallback_header ++ [big_span].map fun b => b.text)) := by
  have hsmall : (format_data_for_llm [] [] []).length ≤ MAX_CHARS := by decide
  have he : format_data_for_llm [big_span] [] [] =
      ("**Text Elements:**" ++ "\n") ++
        (((("- Text: \"" ++ big_span.text ++ "\" | Position (x1,y1,x2,y2): ") ++
          intListStr (big_span.bbox.map pyRound)) ++ " | Size: ") ++ intStr big_span.size) := rfl
  have ht : big_span.text.length = 15001 := by
    show (List.replicate 15001 'a').length = 15001
    rw [List.length_replicate]
  have hbig : MAX_CHARS < (format_data_for_llm [big_span] [] []).length := by
    rw [he]
    simp only [String.length_append, ht, MAX_CHARS]
    omega
  exact ⟨⟨hsmall, (generate_markdown_size_gate llm_echo [] [] []).1 hsmall⟩,
    ⟨hbig, ((generate_markdown_size_gate llm_echo [big_span] [] []).2 hbig).1,
      ((generate_markdown_size_gate llm_echo [big_span] [] []).2 hbig).2.2⟩⟩

/-- C5 counterexample: when the external tool times out
(`subprocess.TimeoutExpired`), the fallback does not return an empty list —
the exception propagates, because the `except` clause catches only
`CalledProcessError` and `FileNotFoundError`. -/
theorem fallback_timeout_raises :
    extract_images_with_fallback ToolOutcome.timeoutExpired ≠
      Except.ok ([] : List ImageAsset) :=
  fun h => Except.noConfusion h

/-- C5 (amended): the fallback runs exactly when the primary extraction is
empty and the document has at least one page; every image the fallback emits
on success has page 0; a missing executable or a non-zero exit degrades to
an empty list — but a timeout propagates as an error (see the
counterexample). -/
theorem extract_images_fallback_policy (doc : RawDoc) (tool : ToolOutcome) :
    ((extract_images_traced doc tool).2 = true ↔
      (primary_images doc = [] ∧ 0 < doc.page_count)) ∧
    ((primary_images doc = [] ∧ 0 < doc.page_count) →
      extract_images doc tool = extract_images_with_fallback tool) ∧
    (¬ (primary_images doc = [] ∧ 0 < doc.page_count) →
      extract_images doc tool = .ok (primary_images doc)) ∧
    (∀ imgs, extract_images_with_fallback tool = Except.ok imgs →
      ∀ img ∈ imgs, img.page = 0) ∧
    (extract_images_with_fallback ToolOutcome.calledProcessError = Except.ok [] ∧
      extract_images_with_fallback ToolOutcome.fileNotFoundError = Except.ok []) := by
  refine ⟨?_, ?_, ?_, ?_, rfl, rfl⟩
  · by_cases hc : primary_images doc = [] ∧ 0 < doc.page_count
    · simp [extract_images_traced, if_pos hc, hc]
    · simp [extract_images_traced, if_neg hc, hc]
  · intro hc
    simp [extract_images, extract_images_traced, if_pos hc]
  · intro hc
    simp [extract_images, extract_images_traced, if_neg hc]
  · intro imgs h img hm
    cases tool with
    | success files =>
      simp only [extract_images_with_fallback, Except.ok.injEq] at h
      rw [← h] at hm
      obtain ⟨fb, _, rfl⟩ := List.mem_map.mp hm
      rfl
    | calledProcessError =>
      simp only [extract_images_with_fallback, Except.ok.injEq] at h
      rw [← h] at hm
      cases hm
    | fileNotFoundError =>
      simp only [extract_images_with_fallback, Except.ok.injEq] at h
      rw [← h] at hm
      cases hm
    | timeoutExpired => exact absurd h (fun hc => Except.noConfusion hc)

/-- A one-page document with no embedded images. -/
def doc_no_images : RawDoc :=
  { is_encrypted := false, passwords := [],
    pages := [{ blocks := [], images := [] }] }

/-- A one-page document with one embedded image. -/
def doc_one_image : RawDoc :=
  { is_encrypted := false, passwords := [],
    pages := [{ blocks := [], images := [{ xref := 7, image := [1, 2], ext := "png" }] }] }

/-- C5 witness: the fallback policy at concrete documents and tool
outcomes. -/
theorem extract_images_fallback_policy_witness :
    (extract_images doc_no_images (ToolOutcome.success [("img-000.png", [9])]) =
      extract_images_with_fallback (ToolOutcome.success [("img-000.png", [9])])) ∧
    (extract_images doc_one_image ToolOutcome.calledProcessError =
      Except.ok (primary_images doc_one_image)) ∧
    (∀ img ∈ [({ name := "img-000.png", bytes := [9], page := 0 } : ImageAsset)],
      img.page = 0) :=
  ⟨(extract_images_fallback_policy doc_no_images
      (ToolOutcome.success [("img-000.png", [9])])).2.1 (by decide),
   (extract_images_fallback_policy doc_one_image
      ToolOutcome.calledProcessError).2.2.1 (by decide),
   (extract_images_fallback_policy doc_no_images
      (ToolOutcome.success [("img-000.png", [9])])).2.2.2.1
     [{ name := "img-000.png", bytes := [9], page := 0 }] rfl⟩

/-- A request whose bytes cannot be parsed as a PDF. -/
def invalid_pdf_req : UploadRequest :=
  { content_type := "application/pdf", filename := "broken.pdf", size := 10,
    file := { parse := .error "Failed to open file.", plumberPages := [] } }

/-- C6: a byte stream that cannot be parsed as a PDF does NOT get the
structured 400 client error the claim describes: `open_pdf_from_path`
re-raises the raw library exception (the `raise InvalidPDFError` is
commented out), which is not a `PDFProcessingError`, so the endpoint's
generic handler collapses it to the opaque 500 — the domain parsing failure
IS collapsed into the generic 500 path. -/
theorem invalid_pdf_collapses_to_500 :
    (convert_pdf_to_html env0 invalid_pdf_req).1 =
      { status := 500, body := .detail "An internal server error occurred." } := rfl

/-- An encrypted document none of whose accepted passwords is the empty
string. -/
def locked_doc : RawDoc :=
  { is_encrypted := true, passwords := ["secret"],
    pages := [{ blocks := [], images := [] }] }

/-- The upload file wrapping `locked_doc`. -/
def locked_pdf : PdfFile :=
  { parse := .ok locked_doc, plumberPages := [] }

/-- C7: opening an encrypted PDF with no valid password does NOT raise a
password-protection error — the `raise PasswordProtectedPDFError` is
commented out, so `open_pdf_from_path` returns a (closed) document handle
instead of failing closed. -/
theorem failed_auth_returns_handle :
    open_pdf_from_path locked_pdf none =
      Except.ok { raw := locked_doc, closed := true } := rfl

/-- C10: for every encrypted input whose authentication with the supplied
(or empty) password fails, `open_pdf_from_path` closes the document and
returns that already-closed handle, so subsequent operations (page count,
page loading) operate on a closed document and raise. -/
theorem failed_auth_closed_handle (f : PdfFile) (raw : RawDoc)
    (password : Option String) (hp : f.parse = .ok raw)
    (he : raw.is_encrypted = true) (ha : (password.getD "") ∉ raw.passwords) :
    open_pdf_from_path f password = Except.ok { raw := raw, closed := true } ∧
    doc_page_count { raw := raw, closed := true } =
      Except.error (PyError.fitzError "document closed") ∧
    doc_load_page { raw := raw, closed := true } 0 =
      Except.error (PyError.fitzError "document closed") := by
  refine ⟨?_, rfl, rfl⟩
  unfold open_pdf_from_path
  rw [hp]
  simp [he, ha]

/-- C10 witness: the closed handle at a concrete encrypted document with no
valid password supplied. -/
theorem failed_auth_closed_handle_witness :
    open_pdf_from_path locked_pdf none =
      Except.ok { raw := locked_doc, closed := true } ∧
    doc_page_count { raw := locked_doc, closed := true } =
      Except.error (PyError.fitzError "document closed") ∧
    doc_load_page { raw := locked_doc, closed := true } 0 =
      Except.error (PyError.fitzError "document closed") :=
  failed_auth_closed_handle locked_pdf locked_doc none rfl rfl (by decide)

/-- C8: a non-PDF content type is rejected with 400 before the body is read
(no `readBody` step in the trace); a too-large body (with the right content
type) is rejected with the distinct status 413 before any PDF parsing
begins (no `openPdf` step in the trace); and the two client-error statuses
differ. -/
theorem upload_validation_order (env : Env) (req : UploadRequest) :
    (req.content_type ≠ "application/pdf" →
      (convert_pdf_to_html env req).1.status = 400 ∧
      Ev.readBody ∉ (convert_pdf_to_html env req).2) ∧
    (req.content_type = "application/pdf" → MAX_FILE_SIZE < req.size →
      (convert_pdf_to_html env req).1.status = 413 ∧
      Ev.openPdf ∉ (convert_pdf_to_html env req).2) ∧
    (413 : Nat) ≠ 400 := by
  refine ⟨?_, ?_, by decide⟩
  · intro h
    simp only [convert_pdf_to_html]
    rw [if_pos h]
    exact ⟨rfl, List.not_mem_nil _⟩
  · intro h1 h2
    simp only [convert_pdf_to_html]
    rw [if_neg (by simp [h1]), if_pos h2]
    exact ⟨rfl, by decide⟩

/-- An upload file value for requests that are rejected before parsing. -/
def unread_pdf_file : PdfFile :=
  { parse := .error "unread", plumberPages := [] }

/-- C8 witness: a text upload is rejected with 400 and an empty trace; a
51-MiB PDF upload is rejected with 413 without the parse step. -/
theorem upload_validation_order_witness :
    ((convert_pdf_to_html env0
        { content_type := "text/plain", filename := "a.txt", size := 5,
          file := unread_pdf_file }).1.status = 400 ∧
      Ev.readBody ∉ (convert_pdf_to_html env0
        { content_type := "text/plain", filename := "a.txt", size := 5,
          file := unread_pdf_file }).2) ∧
    ((convert_pdf_to_html env0
        { content_type := "application/pdf", filename := "big.pdf",
          size := 53477376, file := unread_pdf_file }).1.status = 413 ∧
      Ev.openPdf ∉ (convert_pdf_to_html env0
        { content_type := "application/pdf", filename := "big.pdf",
          size := 53477376, file := unread_pdf_file }).2) :=
  ⟨(upload_validation_order env0 _).1 (by decide),
   (upload_validation_order env0 _).2.1 rfl (by decide)⟩

theorem page_tables_lookup_of_not_mem (l : List TableEntry) (p : Nat)
    (h : ∀ e ∈ l, e.page_number ≠ p) : page_tables_lookup l p = [] := by
  have hf : l.find? (fun t => t.page_number == p) = none :=
    List.find?_eq_none.mpr (fun x hx => by simp [h x hx])
  simp [page_tables_lookup, hf]

theorem page_tables_lookup_of_mem (e : TableEntry) (p : Nat)
    (hp : e.page_number = p) :
    ∀ l : List TableEntry, (l.map fun x => x.page_number).Nodup → e ∈ l →
      page_tables_lookup l p = e.tables := by
  intro l
  induction l with
  | nil => intro _ he; cases he
  | cons a l ih =>
    intro hn he
    by_cases hap : a.page_number = p
    · have hf : (a :: l).find? (fun t => t.page_number == p) = some a :=
        List.find?_cons_of_pos _ (by simp [hap])
      have hea : e = a := by
        cases he with
        | head => rfl
        | tail _ hmem =>
          exfalso
          rw [List.map_cons, List.nodup_cons] at hn
          exact hn.1 (List.mem_map.mpr ⟨e, hmem, by rw [hp, hap]⟩)
      simp [page_tables_lookup, hf, hea]
    · have hf : (a :: l).find? (fun t => t.page_number == p) =
          l.find? (fun t => t.page_number == p) :=
        List.find?_cons_of_neg _ (by simp [hap])
      have hne : e ∈ l := by
        cases he with
        | head => exact absurd hp hap
        | tail _ hmem => exact hmem
      have hn2 : (l.map fun x => x.page_number).Nodup := by
        rw [List.map_cons, List.nodup_cons] at hn
        exact hn.2
      have := ih hn2 hne
      simpa [page_tables_lookup, hf] using this

theorem page_tables_lookup_not_elsewhere (l : List TableEntry) (e : TableEntry)
    (t : Table) (huniq : ∀ e2 ∈ l, t ∈ e2.tables → e2 = e) :
    ∀ p, p ≠ e.page_number → t ∉ page_tables_lookup l p := by
  intro p hne
  unfold page_tables_lookup
  cases hf : l.find? (fun x => x.page_number == p) with
  | none => simp
  | some e2 =>
    intro ht
    have h1 := List.find?_some hf
    have h2 : e2 ∈ l := List.mem_of_find?_eq_some hf
    rw [huniq e2 h2 ht] at h1
    simp only [beq_iff_eq] at h1
    exact hne h1.symm

/-- C4: the per-page join is total and stable: the table lookup yields the
matching entry's tables when one exists and the empty list (never an
index-miss error) when none does; a table carried only by the entry for
page k is in page k's lookup and in no other page's lookup; and the image
lookup is exactly the filter of the global image list by equality on
`page`. -/
theorem page_join_total_and_stable (all_table_data : List TableEntry)
    (all_image_data : List ImageAsset) (e : TableEntry) (t : Table) :
    (∀ p, (∀ e2 ∈ all_table_data, e2.page_number ≠ p) →
      page_tables_lookup all_table_data p = []) ∧
    ((all_table_data.map fun x => x.page_number).Nodup → e ∈ all_table_data →
      page_tables_lookup all_table_data e.page_number = e.tables) ∧
    ((all_table_data.map fun x => x.page_number).Nodup → e ∈ all_table_data →
      t ∈ e.tables → t ∈ page_tables_lookup all_table_data e.page_number) ∧
    (e ∈ all_table_data → (∀ e2 ∈ all_table_data, t ∈ e2.tables → e2 = e) →
      ∀ p, p ≠ e.page_number → t ∉ page_tables_lookup all_table_data p) ∧
    (∀ p img, img ∈ page_images_lookup all_image_data p ↔
      img ∈ all_image_data ∧ img.page = p) := by
  refine ⟨?_, ?_, ?_, ?_, ?_⟩
  · exact fun p h => page_tables_lookup_of_not_mem all_table_data p h
  · exact fun hn he => page_tables_lookup_of_mem e e.page_number rfl all_table_data hn he
  · intro hn he ht
    rw [page_tables_lookup_of_mem e e.page_number rfl all_table_data hn he]
    exact ht
  · exact fun _ hu p hp => page_tables_lookup_not_elsewhere all_table_data e t hu p hp
  · intro p img
    simp [page_images_lookup, List.mem_filter]

/-- The single sparse table entry of the C4 witness scenario: one table
detected on page 3 of a 5-page document. -/
def entry_page3 : TableEntry :=
  { page_number := 3, tables := [[[some "v", none], [some "", some "w"]]] }

/-- C4 witness: with the sparse result holding only `entry_page3`, the
lookup at page 0 is empty, the lookup at page 3 is its tables, the table is
present at page 3 and absent at every other page of the 5-page document,
and the image filter behaves as stated at a concrete image. -/
theorem page_join_total_and_stable_witness :
    page_tables_lookup [entry_page3] 0 = [] ∧
    page_tables_lookup [entry_page3] 3 = entry_page3.tables ∧
    [[some "v", none], [some "", some "w"]] ∈ page_tables_lookup [entry_page3] 3 ∧
    (∀ p, p ≠ 3 →
      [[some "v", none], [some "", some "w"]] ∉ page_tables_lookup [entry_page3] p) ∧
    ({ name := "i.png", bytes := [], page := 2 } : ImageAsset) ∈
      page_images_lookup [{ name := "i.png", bytes := [], page := 2 }] 2 := by
  have h := page_join_total_and_stable [entry_page3]
    [{ name := "i.png", bytes := [], page := 2 }] entry_page3
    [[some "v", none], [some "", some "w"]]
  refine ⟨h.1 0 (by decide), h.2.1 (by decide) (by decide),
    h.2.2.1 (by decide) (by decide) (by decide), ?_, ?_⟩
  · intro p hp
    exact h.2.2.2.1 (by decide) (by decide) p hp
  · exact (h.2.2.2.2 2 _).mpr (by decide)

/-- C2: the archive's entry-name list is exactly `page-1.html` …
`page-N.html` in ascending page order, then `style.css`, then
`images/{name}` for each extracted image in order; and when the extracted
image names are distinct, the entry names contain no duplicates. -/
theorem archive_entries_exact (env : Env) (total_pages : Nat)
    (all_text_data : List PageText) (all_image_data : List ImageAsset)
    (all_table_data : List TableEntry) :
    ((build_zip env total_pages all_text_data all_image_data all_table_data).map
        Prod.fst =
      ((List.range total_pages).map fun i => page_entry_name (i + 1)) ++
        ["style.css"] ++
        all_image_data.map fun image => image_entry_name image.name) ∧
    ((all_image_data.map fun image => image.name).Nodup →
      ((build_zip env total_pages all_text_data all_image_data all_table_data).map
        Prod.fst).Nodup) := by
  have hmap : (build_zip env total_pages all_text_data all_image_data
      all_table_data).map Prod.fst =
      ((List.range total_pages).map fun i => page_entry_name (i + 1)) ++
        ["style.css"] ++
        all_image_data.map fun image => image_entry_name image.name := by
    cases all_image_data with
    | nil => simp [build_zip, List.map_map, Function.comp]
    | cons a l =>
      simp [build_zip, List.map_append, List.map_map, Function.comp]
      rfl
  refine ⟨hmap, ?_⟩
  intro hnd
  rw [hmap]
  have hpinj : Function.Injective fun i : Nat => page_entry_name (i + 1) := by
    intro a b hab
    have := page_entry_name_injective hab
    omega
  rw [List.nodup_append, List.nodup_append]
  refine ⟨⟨(List.nodup_range total_pages).map hpinj, by simp, ?_⟩, ?_, ?_⟩
  · intro a ha hb
    obtain ⟨i, _, rfl⟩ := List.mem_map.mp ha
    rw [List.mem_singleton] at hb
    exact page_entry_name_ne_css (i + 1) hb
  · rw [show (all_image_data.map fun image => image_entry_name image.name) =
      (all_image_data.map fun image => image.name).map image_entry_name from by
        rw [List.map_map]; rfl]
    exact List.Nodup.map image_entry_name_injective hnd
  · intro a ha hb
    obtain ⟨im, _, rfl⟩ := List.mem_map.mp hb
    rcases List.mem_append.mp ha with hpg | hcss
    · obtain ⟨i, _, hpe⟩ := List.mem_map.mp hpg
      exact page_entry_name_ne_image (i + 1) im.name hpe
    · rw [List.mem_singleton] at hcss
      exact image_entry_name_ne_css im.name hcss

/-- C2 witness: a two-page document with two distinctly named images: the
entry names are `page-1.html`, `page-2.html`, `style.css`, `images/a.png`,
`images/b.png`, without duplicates. -/
theorem archive_entries_exact_witness :
    ([({ name := "a.png", bytes := [1], page := 0 } : ImageAsset),
      { name := "b.png", bytes := [2], page := 1 }].map fun image => image.name).Nodup ∧
    ((build_zip env0 2 []
      [{ name := "a.png", bytes := [1], page := 0 },
       { name := "b.png", bytes := [2], page := 1 }] []).map Prod.fst).Nodup :=
  ⟨by decide,
   (archive_entries_exact env0 2 []
     [{ name := "a.png", bytes := [1], page := 0 },
      { name := "b.png", bytes := [2], page := 1 }] []).2 (by decide)⟩
